import Mathlib

/-!
# Verification of `sleep-data.py` (garmin-to-notion)

A shallow embedding of the single-file Python program that fetches one day's
Garmin sleep summary and inserts it into a Notion database, together with
proofs of the specified properties.

Modelling conventions:
* Python `int` is `Int`; Python floor division `//` is `Int.fdiv` and `%` is
  `Int.emod` (both agree with Python for a positive divisor).
* A Python value that may be a missing dictionary key or `None` is modelled
  as `Option (Option α)`: `none` = key absent, `some none` = key present and
  bound to `None`, `some (some v)` = present with value `v`.
* Library behaviour that the program relies on (`datetime`, `strftime`,
  `pytz` Europe/Paris) is embedded by the standard civil-calendar algorithms
  and the EU daylight-saving rule in force since 1996 (CEST between 01:00 UTC
  on the last Sunday of March and 01:00 UTC on the last Sunday of October),
  which is what the tz database gives for Europe/Paris on every timestamp
  this program can encounter.  The models are total functions; they agree
  with CPython on the datetime-representable range (years 1..9999).
* Fallible Python code (an expression that raises) is modelled with `Option`:
  `none` means the exception propagates.
-/

namespace GarminSync

/-! ## Decimal digit rendering (models zero-padded `strftime` fields) -/

/-- One decimal digit character, `0`..`9`. -/
def digit (n : Nat) : Char := Nat.digitChar (n % 10)

/-- Two-digit zero-padded decimal rendering, as produced by `strftime`
fields `%H`, `%M`, `%S`, `%d`, `%m` (their values are always below 100). -/
def twoDigits (n : Nat) : String := String.mk [digit (n / 10), digit n]

/-- Four-digit zero-padded decimal rendering, as produced by `strftime`
field `%Y` on the representable years 0..9999. -/
def fourDigits (n : Nat) : String :=
  String.mk [digit (n / 1000), digit (n / 100), digit (n / 10), digit n]

/-! ## Civil calendar arithmetic (models `datetime` conversions)

The standard `days ↔ (year, month, day)` algorithms on the proleptic
Gregorian calendar, counting days from the Unix epoch 1970-01-01. -/

/-- Civil date `(year, month, day)` of day number `z` (days since
1970-01-01).  Months are 1..12, days 1..31. -/
def civilFromDays (z0 : Int) : Int × Nat × Nat :=
  let z : Int := z0 + 719468
  let era : Int := z.fdiv 146097
  let doe : Nat := (z - era * 146097).toNat
  let yoe : Nat := (doe - doe / 1460 + doe / 36524 - doe / 146096) / 365
  let y : Int := (yoe : Int) + era * 400
  let doy : Nat := doe - (365 * yoe + yoe / 4 - yoe / 100)
  let mp : Nat := (5 * doy + 2) / 153
  let d : Nat := doy - (153 * mp + 2) / 5 + 1
  let m : Nat := if mp < 10 then mp + 3 else mp - 9
  (if m ≤ 2 then y + 1 else y, m, d)

/-- Day number (days since 1970-01-01) of the civil date `(y, m, d)`. -/
def daysFromCivil (y : Int) (m d : Nat) : Int :=
  let y' : Int := if m ≤ 2 then y - 1 else y
  let era : Int := y'.fdiv 400
  let yoe : Nat := (y' - era * 400).toNat
  let mp : Nat := if 2 < m then m - 3 else m + 9
  let doy : Nat := (153 * mp + 2) / 5 + d - 1
  let doe : Nat := yoe * 365 + yoe / 4 - yoe / 100 + doy
  era * 146097 + (doe : Int) - 719468

/-! ## Europe/Paris timezone (models `pytz.timezone("Europe/Paris")`)

EU rule, in force since 1996: daylight saving (UTC+2) runs from 01:00 UTC on
the last Sunday of March to 01:00 UTC on the last Sunday of October;
otherwise the offset is UTC+1. -/

/-- Day of the month of the last Sunday of month `m` (March or October, both
31-day months) of year `y`. -/
def lastSunday (y : Int) (m : Nat) : Nat :=
  31 - ((daysFromCivil y m 31 + 4).emod 7).toNat

/-- Whether the UTC instant `sec` (seconds since the epoch) falls in the
Europe/Paris daylight-saving window of its year. -/
def parisDST (sec : Int) : Bool :=
  let y : Int := (civilFromDays (sec.fdiv 86400)).1
  let startSec : Int := 86400 * daysFromCivil y 3 (lastSunday y 3) + 3600
  let endSec : Int := 86400 * daysFromCivil y 10 (lastSunday y 10) + 3600
  decide (startSec ≤ sec) && decide (sec < endSec)

/-- UTC offset of Europe/Paris, in seconds, at the UTC instant `sec`. -/
def parisOffset (sec : Int) : Int := if parisDST sec then 7200 else 3600

/-! ## The three formatters (`format_duration`, `format_time`,
`format_time_readable`) -/

/-- Models `format_duration(seconds)`:
`minutes = (seconds or 0) // 60; return f"{minutes // 60}h {minutes % 60}m"`.
The argument is `Option Int` because the call sites pass
`daily_sleep.get(k, 0)`, which may be `None`. -/
def formatDuration (seconds : Option Int) : String :=
  let minutes : Int := (seconds.getD 0).fdiv 60
  toString (minutes.fdiv 60) ++ "h " ++ toString (minutes.emod 60) ++ "m"

/-- Models `format_time(timestamp)`: `None` for a falsy timestamp, otherwise
`datetime.utcfromtimestamp(timestamp / 1000).strftime("%Y-%m-%dT%H:%M:%S.000Z")`. -/
def formatTime (timestamp : Option Int) : Option String :=
  match timestamp with
  | none => none
  | some t =>
    if t = 0 then none
    else
      let sec : Int := t.fdiv 1000
      let sod : Nat := (sec.emod 86400).toNat
      let c := civilFromDays (sec.fdiv 86400)
      some (fourDigits c.1.toNat ++ "-" ++ twoDigits c.2.1 ++ "-" ++ twoDigits c.2.2
        ++ "T" ++ twoDigits (sod / 3600) ++ ":" ++ twoDigits (sod / 60 % 60)
        ++ ":" ++ twoDigits (sod % 60) ++ ".000Z")

/-- Models `format_time_readable(timestamp)`: `"Unknown"` for a falsy timestamp,
otherwise the epoch-ms instant converted to Europe/Paris and rendered
`"%H:%M"`. -/
def formatTimeReadable (timestamp : Option Int) : String :=
  match timestamp with
  | none => "Unknown"
  | some t =>
    if t = 0 then "Unknown"
    else
      let sec : Int := t.fdiv 1000
      let localSec : Int := sec + parisOffset sec
      let sod : Nat := (localSec.emod 86400).toNat
      twoDigits (sod / 3600) ++ ":" ++ twoDigits (sod / 60 % 60)

/-! ## Data model

`dailySleepDTO` is a Python dict; each key the program reads is modelled as
`Option (Option _)` (absent / `None` / value), and `hasOtherKeys` records
whether the dict holds further keys the program never reads (relevant only
to the Python truthiness test `if not daily_sleep`). -/

structure DailySleepDTO where
  calendarDate : Option (Option String)
  deepSleepSeconds : Option (Option Int)
  lightSleepSeconds : Option (Option Int)
  remSleepSeconds : Option (Option Int)
  awakeSleepSeconds : Option (Option Int)
  sleepStartTimestampGMT : Option (Option Int)
  sleepEndTimestampGMT : Option (Option Int)
  hasOtherKeys : Bool
deriving DecidableEq, Inhabited

/-- Python truthiness of the `dailySleepDTO` dict: `not daily_sleep` holds
exactly when the dict has no keys at all. -/
def DailySleepDTO.isEmptyDict (d : DailySleepDTO) : Bool :=
  d.calendarDate.isNone && d.deepSleepSeconds.isNone && d.lightSleepSeconds.isNone
    && d.remSleepSeconds.isNone && d.awakeSleepSeconds.isNone
    && d.sleepStartTimestampGMT.isNone && d.sleepEndTimestampGMT.isNone
    && !d.hasOtherKeys

/-- The top-level Garmin response (`sleep_data`).  A falsy response (absent
or empty) is modelled by `none` at the use sites. -/
structure SleepData where
  dailySleepDTO : Option DailySleepDTO
  restingHeartRate : Option (Option Int)
deriving DecidableEq, Inhabited

/-- Models `daily_sleep.get(k, 0) or 0`: an absent key, a `None` value and `0` all
give `0`. -/
def getOr0 (f : Option (Option Int)) : Int :=
  match f with
  | none => 0
  | some none => 0
  | some (some n) => n

/-- Models `daily_sleep.get(k, 0)` without the `or` guard: an absent key gives `0`,
but a key bound to `None` stays `None` (and makes `None / 3600` raise). -/
def getRaw (f : Option (Option Int)) : Option Int :=
  match f with
  | none => some 0
  | some v => v

/-- Models `daily_sleep.get(k)`: absent and `None` collapse to `None`. -/
def getFlat {α : Type} (f : Option (Option α)) : Option α :=
  match f with
  | none => none
  | some v => v

/-- Models `total_sleep = sum((daily_sleep.get(k, 0) or 0) for k in
['deepSleepSeconds', 'lightSleepSeconds', 'remSleepSeconds'])`. -/
def totalSleep (dto : DailySleepDTO) : Int :=
  getOr0 dto.deepSleepSeconds + getOr0 dto.lightSleepSeconds + getOr0 dto.remSleepSeconds

/-! ## Date-string handling (`format_date_for_name`) -/

/-- Gregorian leap year. -/
def isLeap (y : Nat) : Bool := y % 4 = 0 && (y % 100 ≠ 0 || y % 400 = 0)

/-- Length of month `m` of year `y`. -/
def daysInMonth (y m : Nat) : Nat :=
  if m = 2 then (if isLeap y then 29 else 28)
  else if m = 4 || m = 6 || m = 9 || m = 11 then 30
  else 31

/-- Models `datetime.strptime(s, "%Y-%m-%d")`, restricted to the zero-padded
`YYYY-MM-DD` form the Garmin API produces (strptime also accepts unpadded
month/day, which never occur here).  `none` models the `ValueError` raised
on a malformed or out-of-range date. -/
def parseYMD (s : String) : Option (Nat × Nat × Nat) :=
  match s.data with
  | [y1, y2, y3, y4, h1, m1, m2, h2, d1, d2] =>
    if y1.isDigit && y2.isDigit && y3.isDigit && y4.isDigit && h1 = '-'
        && m1.isDigit && m2.isDigit && h2 = '-' && d1.isDigit && d2.isDigit then
      let y := ((y1.toNat - 48) * 1000 + (y2.toNat - 48) * 100 + (y3.toNat - 48) * 10 + (y4.toNat - 48))
      let m := (m1.toNat - 48) * 10 + (m2.toNat - 48)
      let d := (d1.toNat - 48) * 10 + (d2.toNat - 48)
      if 1 ≤ y && 1 ≤ m && m ≤ 12 && 1 ≤ d && d ≤ daysInMonth y m then
        some (y, m, d)
      else none
    else none
  | _ => none

/-- Models `format_date_for_name(sleep_date)`: `"Unknown"` for a falsy argument,
otherwise `strptime(..., "%Y-%m-%d").strftime("%d.%m.%Y")`.  The result is
`none` when strptime raises. -/
def formatDateForName (sleepDate : Option String) : Option String :=
  match sleepDate with
  | none => some "Unknown"
  | some s =>
    if s = "" then some "Unknown"
    else
      match parseYMD s with
      | none => none
      | some (y, m, d) => some (twoDigits d ++ "." ++ twoDigits m ++ "." ++ fourDigits y)

/-! ## Rounding (models `round(x / 3600, 1)`)

Python's `round(x, 1)` rounds to the nearest multiple of 1/10, ties to even.
The code applies it to `seconds / 3600`; the model computes the result in
tenths of an hour, as an integer, on the exact rational `seconds / 3600`
(which agrees with the float computation on every realistic duration): a
stored hour value `h.d` is represented by the integer `hd`. -/

/-- The integer nearest to the exact fraction `a / b` (with `b > 0`), ties
going to the even neighbour. -/
def roundHalfEvenDiv (a b : Int) : Int :=
  let q := a.fdiv b
  let r := a - q * b
  if 2 * r < b then q
  else if b < 2 * r then q + 1
  else if q % 2 = 0 then q else q + 1

/-- Models `round(seconds / 3600, 1)`, in tenths of an hour: the stored number is
`round1 seconds / 10`. -/
def round1 (seconds : Int) : Int := roundHalfEvenDiv (seconds * 10) 3600

/-! ## The record written to Notion (`properties` of `client.pages.create`) -/

/-- The distinguishable content of the Notion page written by
`create_sleep_data`: one field per property of the `properties` dict, plus
the icon. -/
structure SleepRecord where
  dateTitle : String
  times : String
  longDate : Option String
  fullStart : Option String
  fullEnd : Option String
  /-- Property "Total Sleep (h)", in tenths of an hour. -/
  totalSleepH : Int
  /-- Property "Light Sleep (h)", in tenths of an hour. -/
  lightSleepH : Int
  /-- Property "Deep Sleep (h)", in tenths of an hour. -/
  deepSleepH : Int
  /-- Property "REM Sleep (h)", in tenths of an hour. -/
  remSleepH : Int
  /-- Property "Awake Time (h)", in tenths of an hour. -/
  awakeSleepH : Int
  totalSleepTxt : String
  lightSleepTxt : String
  deepSleepTxt : String
  remSleepTxt : String
  awakeSleepTxt : String
  restingHR : Option Int
  icon : String
deriving DecidableEq, Inhabited

/-- Builds the `properties` dict of `create_sleep_data`.  `none` models an
exception while building: `strptime` on a malformed date, or `None / 3600`
when a stage key is present but bound to `None`. -/
def buildRecord (sd : SleepData) (dto : DailySleepDTO) (sleepDate : Option String)
    (total : Int) : Option SleepRecord :=
  match formatDateForName sleepDate, getRaw dto.lightSleepSeconds, getRaw dto.deepSleepSeconds,
      getRaw dto.remSleepSeconds, getRaw dto.awakeSleepSeconds with
  | some title, some light, some deep, some rem, some awake =>
    some {
      dateTitle := title
      times := formatTimeReadable (getFlat dto.sleepStartTimestampGMT) ++ " → "
        ++ formatTimeReadable (getFlat dto.sleepEndTimestampGMT)
      longDate := sleepDate
      fullStart := formatTime (getFlat dto.sleepStartTimestampGMT)
      fullEnd := formatTime (getFlat dto.sleepEndTimestampGMT)
      totalSleepH := round1 total
      lightSleepH := round1 light
      deepSleepH := round1 deep
      remSleepH := round1 rem
      awakeSleepH := round1 awake
      totalSleepTxt := formatDuration (some total)
      lightSleepTxt := formatDuration (getRaw dto.lightSleepSeconds)
      deepSleepTxt := formatDuration (getRaw dto.deepSleepSeconds)
      remSleepTxt := formatDuration (getRaw dto.remSleepSeconds)
      awakeSleepTxt := formatDuration (getRaw dto.awakeSleepSeconds)
      restingHR := match sd.restingHeartRate with
        | none => some 0
        | some v => v
      icon := "😴" }
  | _, _, _, _, _ => none

/-- Python `f"{x}"` on a string-or-`None` value. -/
def pyShow (s : Option String) : String :=
  match s with
  | none => "None"
  | some v => v

/-- Observable outcome of one `create_sleep_data` call. -/
inductive CreateOutcome where
  /-- Outcome when `dailySleepDTO` is missing or empty: silent `return`, nothing written,
  nothing printed. -/
  | skippedEmpty : CreateOutcome
  /-- Outcome for zero total sleep with `skip_zero_sleep`: the diagnostic is printed and
  nothing is written. -/
  | skippedZero (msg : String) : CreateOutcome
  /-- Outcome when an exception escapes while building the properties; nothing written. -/
  | crashed : CreateOutcome
  /-- Outcome of exactly one `client.pages.create` call, with this record. -/
  | created (r : SleepRecord) : CreateOutcome
deriving DecidableEq, Inhabited

/-- Models `create_sleep_data(client, database_id, sleep_data, skip_zero_sleep)`. -/
def createSleepData (sd : SleepData) (skipZeroSleep : Bool) : CreateOutcome :=
  match sd.dailySleepDTO with
  | none => .skippedEmpty
  | some dto =>
    if dto.isEmptyDict then .skippedEmpty
    else
      let sleepDate : Option String :=
        match dto.calendarDate with
        | none => some "Unknown Date"
        | some v => v
      let total := totalSleep dto
      if skipZeroSleep && total == 0 then
        .skippedZero ("Skipping sleep data for " ++ pyShow sleepDate ++ " as total sleep is 0")
      else
        match buildRecord sd dto sleepDate total with
        | none => .crashed
        | some r => .created r

/-! ## The Notion table and the orchestrator (`sleep_data_exists`, `main`) -/

/-- Models `sleep_data_exists`: query the table for rows whose "Long Date" date
property equals `sleepDate`, returning the first match. -/
def sleepDataExists (db : List SleepRecord) (sleepDate : String) : Option SleepRecord :=
  (db.filter (fun r => r.longDate = some sleepDate)).head?

/-- Number of rows of the table whose "Long Date" equals `d`. -/
def countDate (db : List SleepRecord) (d : String) : Nat :=
  (db.filter (fun r => r.longDate = some d)).length

/-- Effect of a `create_sleep_data` outcome on the table: only `created`
adds a row. -/
def applyCreate (db : List SleepRecord) (o : CreateOutcome) : List SleepRecord :=
  match o with
  | .created r => db ++ [r]
  | _ => db

/-- Models `data.get('dailySleepDTO', {}).get('calendarDate')` followed by the
truthiness test `if sleep_date`: the date must be present, non-`None` and
non-empty. -/
def truthyCalendarDate (sd : SleepData) : Option String :=
  match sd.dailySleepDTO with
  | none => none
  | some dto =>
    match dto.calendarDate with
    | some (some s) => if s = "" then none else some s
    | _ => none

/-- Observable outcome of one run of the tail of `main` (after the fetch). -/
inductive MainOutcome where
  /-- Outcome when the fetch returned a falsy result. -/
  | noData : MainOutcome
  /-- Outcome when no (truthy) `calendarDate` is in the response. -/
  | noDate : MainOutcome
  /-- Outcome when a row for that date already exists. -/
  | alreadyExists (r : SleepRecord) : MainOutcome
  /-- Outcome when `create_sleep_data` was invoked, with this outcome. -/
  | invoked (o : CreateOutcome) : MainOutcome
deriving DecidableEq, Inhabited

/-- One run of `main`'s decision sequence over a table `db` and a fetched
result `data` (`none` = falsy response): returns the new table and what
happened. -/
def mainStep (db : List SleepRecord) (data : Option SleepData) :
    List SleepRecord × MainOutcome :=
  match data with
  | none => (db, .noData)
  | some sd =>
    match truthyCalendarDate sd with
    | none => (db, .noDate)
    | some d =>
      match sleepDataExists db d with
      | some r => (db, .alreadyExists r)
      | none =>
        let o := createSleepData sd true
        (applyCreate db o, .invoked o)

/-- The record carried by a `created` outcome, if any. -/
def CreateOutcome.createdRec (o : CreateOutcome) : Option SleepRecord :=
  match o with
  | .created r => some r
  | _ => none

/-! ## Concrete witness data -/

/-- A representative Garmin `dailySleepDTO`: the night of 2024-01-15
(22:30 → 00:30 UTC), deep 3600 s, light 3600 s, REM 1800 s, awake 7200 s. -/
def sampleDTO : DailySleepDTO where
  calendarDate := some (some "2024-01-15")
  deepSleepSeconds := some (some 3600)
  lightSleepSeconds := some (some 3600)
  remSleepSeconds := some (some 1800)
  awakeSleepSeconds := some (some 7200)
  sleepStartTimestampGMT := some (some 1705357800000)
  sleepEndTimestampGMT := some (some 1705361400000)
  hasOtherKeys := true

/-- A representative Garmin response wrapping `sampleDTO`. -/
def sampleData : SleepData where
  dailySleepDTO := some sampleDTO
  restingHeartRate := some (some 52)

/-- The record `create_sleep_data` builds from `sampleData` (extracted from
the outcome, so that it is definitionally the created record). -/
def sampleRec : SleepRecord :=
  ((createSleepData sampleData true).createdRec).getD default

/-- A `dailySleepDTO` with all sleep-stage durations present and zero. -/
def zeroDTO : DailySleepDTO where
  calendarDate := some (some "2024-02-29")
  deepSleepSeconds := some (some 0)
  lightSleepSeconds := some (some 0)
  remSleepSeconds := some (some 0)
  awakeSleepSeconds := some (some 0)
  sleepStartTimestampGMT := some none
  sleepEndTimestampGMT := some none
  hasOtherKeys := true

/-- A Garmin response wrapping `zeroDTO`. -/
def zeroData : SleepData where
  dailySleepDTO := some zeroDTO
  restingHeartRate := none

/-- A `dailySleepDTO` dict with no keys at all (Python `{}`, falsy). -/
def emptyDTO : DailySleepDTO := ⟨none, none, none, none, none, none, none, false⟩

/-- A Garmin response whose `dailySleepDTO` is the empty dict. -/
def emptyData : SleepData := ⟨some emptyDTO, none⟩

/-! ## Theorems -/

/-- Claim C2: the total sleep computed by the record creator is exactly
`deepSleepSeconds + lightSleepSeconds + remSleepSeconds`; changing
`awakeSleepSeconds` never changes it; and on the spec's example
(deep 3600, light 3600, rem 1800, awake 7200) the total is 9000 s, stored
as 2.5 h (25 tenths), not 4.5 h (which 16200 s would give). -/
theorem totalSleep_excludes_awake :
    (∀ dto : DailySleepDTO, totalSleep dto
        = getOr0 dto.deepSleepSeconds + getOr0 dto.lightSleepSeconds
          + getOr0 dto.remSleepSeconds)
    ∧ (∀ (dto : DailySleepDTO) (a : Option (Option Int)),
        totalSleep { dto with awakeSleepSeconds := a } = totalSleep dto)
    ∧ totalSleep sampleDTO = 9000 ∧ round1 9000 = 25 ∧ round1 16200 = 45 :=
  ⟨fun _ => rfl, fun _ _ => rfl, by decide, by decide, by decide⟩

/-- Claim C3: the duration formatter renders `{hours}h {minutes}m` with
floor integer division (hours = `s // 3600`, displayed minutes =
`s // 60 % 60`), a missing/`None` input behaves as zero, and in particular
`0` and `None` render `"0h 0m"` while `3661` renders `"1h 1m"`. -/
theorem formatDuration_correct :
    formatDuration none = "0h 0m" ∧ formatDuration (some 0) = "0h 0m"
    ∧ formatDuration (some 3661) = "1h 1m"
    ∧ ∀ s : Int, formatDuration (some s)
        = toString (s / 3600) ++ "h " ++ toString (s / 60 % 60) ++ "m" := by
  refine ⟨by decide, by decide, by decide, fun s => ?_⟩
  simp only [formatDuration, Option.getD_some]
  rw [Int.fdiv_eq_ediv _ (by norm_num), Int.fdiv_eq_ediv _ (by norm_num),
    show s / 60 / 60 = s / 3600 from by omega]
  rfl

/-- Claim C10: in the total-sleep computation every per-stage lookup maps a
missing key and a `None` value to `0`, so the sum is total, and a summary
whose three stage fields are all `None` yields the same total (namely `0`)
as one whose stage fields are all `0`. -/
theorem totalSleep_null_safe :
    getOr0 none = 0 ∧ getOr0 (some none) = 0 ∧ (∀ n : Int, getOr0 (some (some n)) = n)
    ∧ ∀ dto : DailySleepDTO,
        totalSleep { dto with
          deepSleepSeconds := some none,
          lightSleepSeconds := some none,
          remSleepSeconds := some none }
          = totalSleep { dto with
              deepSleepSeconds := some (some 0),
              lightSleepSeconds := some (some 0),
              remSleepSeconds := some (some 0) }
        ∧ totalSleep { dto with
            deepSleepSeconds := some none,
            lightSleepSeconds := some none,
            remSleepSeconds := some none } = 0 :=
  ⟨rfl, rfl, fun _ => rfl, fun _ => ⟨rfl, rfl⟩⟩

/-- Claim C9: when `dailySleepDTO` is missing or an empty dict, the record
creator returns at once — no record-creation call, no diagnostic — whatever
the value of `skip_zero_sleep`. -/
theorem createSleepData_empty_noop :
    ∀ (sd : SleepData) (skip : Bool),
      sd.dailySleepDTO = none
        ∨ (∃ dto, sd.dailySleepDTO = some dto ∧ dto.isEmptyDict = true) →
      createSleepData sd skip = .skippedEmpty
        ∧ ∀ db, applyCreate db (createSleepData sd skip) = db := by
  intro sd skip h
  have hs : createSleepData sd skip = .skippedEmpty := by
    rcases h with h | ⟨dto, hd, he⟩
    · simp [createSleepData, h]
    · simp [createSleepData, hd, he]
  exact ⟨hs, fun db => by rw [hs]; rfl⟩

/-- Witness for C9 at a concrete input: a response whose `dailySleepDTO`
dict is present but empty. -/
theorem createSleepData_empty_noop_witness :
    createSleepData emptyData false = .skippedEmpty
      ∧ ∀ db, applyCreate db (createSleepData emptyData false) = db :=
  createSleepData_empty_noop emptyData false (Or.inr ⟨emptyDTO, rfl, by decide⟩)

/-- Claim C5: the machine timestamp formatter returns `none` exactly on a
falsy (absent or zero) timestamp; on any other timestamp it returns a
string carrying the literal `".000Z"` suffix, and on the known instant
1970 + 1700000000000 ms it returns exactly `"2023-11-14T22:13:20.000Z"`. -/
theorem formatTime_correct :
    (∀ t : Option Int, formatTime t = none ↔ t = none ∨ t = some 0)
    ∧ (∀ t : Int, t ≠ 0 → ∃ p, formatTime (some t) = some (p ++ ".000Z"))
    ∧ formatTime (some 1700000000000) = some "2023-11-14T22:13:20.000Z" := by
  refine ⟨fun t => ?_, fun t ht => ?_, by decide⟩
  · cases t with
    | none => simp [formatTime]
    | some v =>
      by_cases hv : v = 0
      · subst hv; simp [formatTime]
      · simp [formatTime, hv]
  · simp only [formatTime, if_neg ht]
    exact ⟨_, rfl⟩

/-- Witness for C5 at the concrete nonzero timestamp 1700000000000. -/
theorem formatTime_correct_witness :
    (1700000000000 : Int) ≠ 0
      ∧ ∃ p, formatTime (some 1700000000000) = some (p ++ ".000Z") :=
  ⟨by decide, formatTime_correct.2.1 1700000000000 (by decide)⟩

/-- Claim C4: the human timestamp formatter returns the literal `"Unknown"`
exactly on a falsy (absent or zero) timestamp; any other instant renders as
a Europe/Paris `HH:MM` string — with the +1 h offset outside daylight
saving (2024-01-15 23:30 UTC renders `"00:30"`, crossing midnight) and the
+2 h offset inside it (2024-07-15 22:45 UTC renders `"00:45"`). -/
theorem formatTimeReadable_correct :
    (∀ t : Option Int, formatTimeReadable t = "Unknown" ↔ t = none ∨ t = some 0)
    ∧ formatTimeReadable (some 1705361400000) = "00:30"
    ∧ parisOffset (Int.fdiv 1705361400000 1000) = 3600
    ∧ formatTimeReadable (some 1721083500000) = "00:45"
    ∧ parisOffset (Int.fdiv 1721083500000 1000) = 7200 := by
  refine ⟨fun t => ?_, by decide, by decide, by decide, by decide⟩
  cases t with
  | none => simp [formatTimeReadable]
  | some v =>
    by_cases hv : v = 0
    · subst hv; simp [formatTimeReadable]
    · simp only [formatTimeReadable, if_neg hv]
      constructor
      · intro h
        have h1 : (":" : String).length = 1 := by decide
        have h7 : ("Unknown" : String).length = 7 := by decide
        have hl := congrArg String.length h
        rw [String.length_append, String.length_append, h1, h7] at hl
        simp [twoDigits] at hl
      · rintro (h | h) <;> simp_all

/-- Claim C6: on a summary whose four sleep-stage second counts are all
present and zero (and whose calendar date is a well-formed date string),
`create_sleep_data` with `skip_zero_sleep = True` emits the diagnostic and
writes nothing, while with `skip_zero_sleep = False` it performs exactly
one record-creation call. -/
theorem skip_zero_behaviour :
    ∀ (sd : SleepData) (dto : DailySleepDTO) (d : String),
      sd.dailySleepDTO = some dto →
      dto.deepSleepSeconds = some (some 0) →
      dto.lightSleepSeconds = some (some 0) →
      dto.remSleepSeconds = some (some 0) →
      dto.awakeSleepSeconds = some (some 0) →
      dto.calendarDate = some (some d) →
      (parseYMD d).isSome = true →
      createSleepData sd true
          = .skippedZero ("Skipping sleep data for " ++ d ++ " as total sleep is 0")
        ∧ (∀ db, applyCreate db (createSleepData sd true) = db)
        ∧ ∃ r, createSleepData sd false = .created r := by
  intro sd dto d hd hdeep hlight hrem hawake hcd hp
  have hne : dto.isEmptyDict = false := by
    simp [DailySleepDTO.isEmptyDict, hcd]
  have htot : totalSleep dto = 0 := by
    simp [totalSleep, hdeep, hlight, hrem, getOr0]
  have hskip : createSleepData sd true
      = .skippedZero ("Skipping sleep data for " ++ d ++ " as total sleep is 0") := by
    simp [createSleepData, hd, hne, htot, hcd, pyShow]
  refine ⟨hskip, fun db => by rw [hskip]; rfl, ?_⟩
  obtain ⟨v, hv⟩ := Option.isSome_iff_exists.mp hp
  obtain ⟨y, m, dd⟩ := v
  have hde : d ≠ "" := by
    intro he
    rw [he] at hv
    exact Option.noConfusion hv
  have hb : (buildRecord sd dto (some d) 0).isSome = true := by
    simp [buildRecord, formatDateForName, hde, hv, hdeep, hlight, hrem, hawake, getRaw]
  obtain ⟨r, hr⟩ := Option.isSome_iff_exists.mp hb
  refine ⟨r, ?_⟩
  simp [createSleepData, hd, hne, htot, hcd, hr]

/-- Witness for C6: the all-zero summary `zeroData` for 2024-02-29. -/
theorem skip_zero_behaviour_witness :
    (zeroData.dailySleepDTO = some zeroDTO
        ∧ zeroDTO.calendarDate = some (some "2024-02-29")
        ∧ (parseYMD "2024-02-29").isSome = true)
      ∧ createSleepData zeroData true
          = .skippedZero ("Skipping sleep data for " ++ "2024-02-29" ++ " as total sleep is 0")
        ∧ (∀ db, applyCreate db (createSleepData zeroData true) = db)
        ∧ ∃ r, createSleepData zeroData false = .created r :=
  ⟨⟨rfl, rfl, by decide⟩,
    skip_zero_behaviour zeroData zeroDTO "2024-02-29" rfl rfl rfl rfl rfl rfl (by decide)⟩

/-- The truthiness chain of `main`: `data.get('dailySleepDTO',
{}).get('calendarDate')` is truthy exactly when the DTO is present and
carries a non-`None`, non-empty calendar date. -/
theorem truthyCalendarDate_some_iff (sd : SleepData) (d : String) :
    truthyCalendarDate sd = some d
      ↔ ∃ dto, sd.dailySleepDTO = some dto
          ∧ dto.calendarDate = some (some d) ∧ d ≠ "" := by
  constructor
  · intro h
    unfold truthyCalendarDate at h
    cases hdto : sd.dailySleepDTO with
    | none => rw [hdto] at h; exact Option.noConfusion h
    | some dto =>
      simp only [hdto] at h
      cases hcd : dto.calendarDate with
      | none => simp only [hcd] at h; exact Option.noConfusion h
      | some v =>
        cases v with
        | none => simp only [hcd] at h; exact Option.noConfusion h
        | some s =>
          simp only [hcd] at h
          by_cases hs : s = ""
          · rw [if_pos hs] at h
            exact Option.noConfusion h
          · rw [if_neg hs] at h
            cases h
            exact ⟨dto, rfl, hcd, hs⟩
  · rintro ⟨dto, hdto, hcd, hs⟩
    unfold truthyCalendarDate
    simp only [hdto, hcd]
    rw [if_neg hs]

/-- Claim C7: the orchestrator invokes the record creator exactly when the
fetch returned data, the DTO carries a (truthy) calendar date, and the
existence check finds no row for that date; in every other case the table
is left unchanged. -/
theorem main_writes_iff :
    ∀ (db : List SleepRecord) (data : Option SleepData),
      ((∃ co, (mainStep db data).2 = .invoked co)
        ↔ ∃ sd dto d, data = some sd ∧ sd.dailySleepDTO = some dto
            ∧ dto.calendarDate = some (some d) ∧ d ≠ ""
            ∧ sleepDataExists db d = none)
      ∧ ((¬ ∃ co, (mainStep db data).2 = .invoked co) → (mainStep db data).1 = db) := by
  intro db data
  cases data with
  | none =>
    constructor
    · constructor
      · rintro ⟨co, h⟩
        exact absurd h (by simp [mainStep])
      · rintro ⟨sd, dto, d, h, -⟩
        exact Option.noConfusion h
    · intro ; rfl
  | some sd =>
    cases ht : truthyCalendarDate sd with
    | none =>
      constructor
      · constructor
        · rintro ⟨co, h⟩
          simp [mainStep, ht] at h
        · rintro ⟨sd2, dto, d, hsd, hdto, hcd, hde, -⟩
          cases hsd
          have : truthyCalendarDate sd = some d :=
            (truthyCalendarDate_some_iff sd d).mpr ⟨dto, hdto, hcd, hde⟩
          rw [ht] at this
          exact Option.noConfusion this
      · intro
        simp [mainStep, ht]
    | some d0 =>
      obtain ⟨dto0, hdto0, hcd0, hde0⟩ := (truthyCalendarDate_some_iff sd d0).mp ht
      cases hex : sleepDataExists db d0 with
      | some r0 =>
        constructor
        · constructor
          · rintro ⟨co, h⟩
            simp [mainStep, ht, hex] at h
          · rintro ⟨sd2, dto, d, hsd, hdto, hcd, hde, hexd⟩
            cases hsd
            have : truthyCalendarDate sd = some d :=
              (truthyCalendarDate_some_iff sd d).mpr ⟨dto, hdto, hcd, hde⟩
            rw [ht] at this
            cases this
            rw [hex] at hexd
            exact Option.noConfusion hexd
        · intro
          simp [mainStep, ht, hex]
      | none =>
        constructor
        · constructor
          · intro
            exact ⟨sd, dto0, d0, rfl, hdto0, hcd0, hde0, hex⟩
          · intro
            exact ⟨createSleepData sd true, by simp [mainStep, ht, hex]⟩
        · intro hno
          exact absurd ⟨createSleepData sd true, by simp [mainStep, ht, hex]⟩ hno

/-- Witness for C7: on an empty table `sampleData` leads to an invocation,
and a falsy fetch result leaves the table unchanged. -/
theorem main_writes_iff_witness :
    (∃ co, (mainStep [] (some sampleData)).2 = .invoked co)
      ∧ (mainStep [] (none : Option SleepData)).1 = [] :=
  ⟨(main_writes_iff [] (some sampleData)).1.mpr
      ⟨sampleData, sampleDTO, "2024-01-15", rfl, rfl, rfl, by decide, rfl⟩,
    (main_writes_iff [] none).2
      (fun h => by
        obtain ⟨co, hco⟩ := h
        exact MainOutcome.noConfusion hco)⟩

/-- Fields of a successfully built record: the "Long Date" is the sleep
date, and each of the five hour fields is the corresponding seconds count
rounded by `round1`. -/
theorem buildRecord_fields :
    ∀ (sd : SleepData) (dto : DailySleepDTO) (sdate : Option String) (tot : Int)
      (r : SleepRecord), buildRecord sd dto sdate tot = some r →
      r.longDate = sdate
      ∧ r.totalSleepH = round1 tot
      ∧ (∀ v, getRaw dto.lightSleepSeconds = some v → r.lightSleepH = round1 v)
      ∧ (∀ v, getRaw dto.deepSleepSeconds = some v → r.deepSleepH = round1 v)
      ∧ (∀ v, getRaw dto.remSleepSeconds = some v → r.remSleepH = round1 v)
      ∧ (∀ v, getRaw dto.awakeSleepSeconds = some v → r.awakeSleepH = round1 v) := by
  intro sd dto sdate tot r h
  unfold buildRecord at h
  cases hf : formatDateForName sdate with
  | none => simp only [hf] at h; exact Option.noConfusion h
  | some title =>
    cases hl : getRaw dto.lightSleepSeconds with
    | none => simp only [hf, hl] at h; exact Option.noConfusion h
    | some light =>
      cases hdp : getRaw dto.deepSleepSeconds with
      | none => simp only [hf, hl, hdp] at h; exact Option.noConfusion h
      | some deep =>
        cases hrm : getRaw dto.remSleepSeconds with
        | none => simp only [hf, hl, hdp, hrm] at h; exact Option.noConfusion h
        | some rem =>
          cases haw : getRaw dto.awakeSleepSeconds with
          | none => simp only [hf, hl, hdp, hrm, haw] at h; exact Option.noConfusion h
          | some awake =>
            simp only [hf, hl, hdp, hrm, haw] at h
            cases h
            refine ⟨rfl, rfl, ?_, ?_, ?_, ?_⟩ <;> intro v hv <;> cases hv <;> rfl

/-- The value `roundHalfEvenDiv a 3600` is within one half of the exact quotient
`a / 3600`. -/
theorem roundHalfEvenDiv_close (a : Int) :
    |(a : ℚ) / 3600 - ((roundHalfEvenDiv a 3600 : Int) : ℚ)| ≤ 1 / 2 := by
  have hfd : a.fdiv 3600 = a / 3600 := Int.fdiv_eq_ediv _ (by norm_num)
  have h0 : 0 ≤ a - a / 3600 * 3600 := by omega
  have h1 : a - a / 3600 * 3600 ≤ 3599 := by omega
  have key : (a : ℚ) - ((a / 3600 : Int) : ℚ) * 3600 = ((a - a / 3600 * 3600 : Int) : ℚ) := by
    push_cast
    ring
  have k0 : (0 : ℚ) ≤ ((a - a / 3600 * 3600 : Int) : ℚ) := by exact_mod_cast h0
  have k1 : ((a - a / 3600 * 3600 : Int) : ℚ) ≤ 3599 := by exact_mod_cast h1
  simp only [roundHalfEvenDiv, hfd]
  split
  · rename_i hlt
    have hb : ((a - a / 3600 * 3600 : Int) : ℚ) ≤ 1799 := by exact_mod_cast (by omega : a - a / 3600 * 3600 ≤ 1799)
    rw [abs_le]
    constructor <;> linarith
  · split
    · rename_i hgt
      have hb : (1801 : ℚ) ≤ ((a - a / 3600 * 3600 : Int) : ℚ) := by exact_mod_cast (by omega : 1801 ≤ a - a / 3600 * 3600)
      rw [abs_le]
      push_cast
      constructor <;> linarith
    · rename_i hn1 hn2
      have he : a - a / 3600 * 3600 = 1800 := by omega
      have hb : ((a - a / 3600 * 3600 : Int) : ℚ) = 1800 := by exact_mod_cast he
      split <;> · rw [abs_le]; push_cast; constructor <;> linarith

/-- Claim C8: in every created record the five numeric hour fields are the
corresponding seconds counts divided by 3600 and rounded to one decimal
place: each stored field is `round1 s` tenths of an hour, the stored value
`round1 s / 10` lies within 1/20 (half of the last decimal place) of the
exact quotient `s / 3600`, and 9000 s is stored as 25 tenths (2.5 h). -/
theorem hour_fields_rounded :
    (∀ (sd : SleepData) (skip : Bool) (r : SleepRecord),
      createSleepData sd skip = .created r →
      ∃ dto, sd.dailySleepDTO = some dto
        ∧ r.totalSleepH = round1 (totalSleep dto)
        ∧ (∀ v, getRaw dto.lightSleepSeconds = some v → r.lightSleepH = round1 v)
        ∧ (∀ v, getRaw dto.deepSleepSeconds = some v → r.deepSleepH = round1 v)
        ∧ (∀ v, getRaw dto.remSleepSeconds = some v → r.remSleepH = round1 v)
        ∧ (∀ v, getRaw dto.awakeSleepSeconds = some v → r.awakeSleepH = round1 v))
    ∧ (∀ s : Int, |(s : ℚ) / 3600 - ((round1 s : Int) : ℚ) / 10| ≤ 1 / 20)
    ∧ round1 9000 = 25 := by
  refine ⟨?_, ?_, by decide⟩
  · intro sd skip r h
    unfold createSleepData at h
    cases hdto : sd.dailySleepDTO with
    | none => rw [hdto] at h; exact CreateOutcome.noConfusion h
    | some dto =>
      simp only [hdto] at h
      by_cases he : dto.isEmptyDict = true
      · rw [if_pos he] at h; exact CreateOutcome.noConfusion h
      · rw [if_neg he] at h
        by_cases hz : (skip && (totalSleep dto == 0)) = true
        · rw [if_pos hz] at h; exact CreateOutcome.noConfusion h
        · rw [if_neg hz] at h
          cases hb : buildRecord sd dto
              (match dto.calendarDate with
                | none => some "Unknown Date"
                | some v => v) (totalSleep dto) with
          | none => rw [hb] at h; exact CreateOutcome.noConfusion h
          | some r0 =>
            rw [hb] at h
            cases h
            obtain ⟨-, ht, hfields⟩ := buildRecord_fields _ _ _ _ _ hb
            exact ⟨dto, rfl, ht, hfields⟩
  · intro s
    have h := roundHalfEvenDiv_close (s * 10)
    have hc : ((s * 10 : Int) : ℚ) = (s : ℚ) * 10 := by push_cast; ring
    unfold round1
    rw [abs_le] at h ⊢
    rw [hc] at h
    constructor <;> linarith

/-- Witness for C8: the record created from `sampleData`. -/
theorem hour_fields_rounded_witness :
    createSleepData sampleData true = .created sampleRec
      ∧ ∃ dto, sampleData.dailySleepDTO = some dto
          ∧ sampleRec.totalSleepH = round1 (totalSleep dto)
          ∧ (∀ v, getRaw dto.lightSleepSeconds = some v → sampleRec.lightSleepH = round1 v)
          ∧ (∀ v, getRaw dto.deepSleepSeconds = some v → sampleRec.deepSleepH = round1 v)
          ∧ (∀ v, getRaw dto.remSleepSeconds = some v → sampleRec.remSleepH = round1 v)
          ∧ (∀ v, getRaw dto.awakeSleepSeconds = some v → sampleRec.awakeSleepH = round1 v) :=
  ⟨by decide, hour_fields_rounded.1 sampleData true sampleRec (by decide)⟩

/-- Counting rows for a date after appending one row. -/
theorem countDate_append (db : List SleepRecord) (r : SleepRecord) (d : String) :
    countDate (db ++ [r]) d
      = countDate db d + (if r.longDate = some d then 1 else 0) := by
  simp only [countDate, List.filter_append, List.length_append]
  congr 1
  by_cases hr : r.longDate = some d
  · rw [if_pos hr]
    simp [hr]
  · rw [if_neg hr]
    simp [hr]

/-- The existence check finds nothing exactly when no row carries the
date. -/
theorem sleepDataExists_none_iff (db : List SleepRecord) (d : String) :
    sleepDataExists db d = none ↔ countDate db d = 0 := by
  simp [sleepDataExists, countDate, List.head?_eq_none_iff, List.length_eq_zero]

/-- A record created by `create_sleep_data` carries the summary's calendar
date as its "Long Date". -/
theorem createSleepData_created_longDate :
    ∀ (sd : SleepData) (dto : DailySleepDTO) (d : String) (skip : Bool) (r : SleepRecord),
      sd.dailySleepDTO = some dto → dto.calendarDate = some (some d) →
      createSleepData sd skip = .created r → r.longDate = some d := by
  intro sd dto d skip r hdto hcd h
  unfold createSleepData at h
  simp only [hdto, hcd] at h
  by_cases he : dto.isEmptyDict = true
  · rw [if_pos he] at h; exact CreateOutcome.noConfusion h
  · rw [if_neg he] at h
    by_cases hz : (skip && (totalSleep dto == 0)) = true
    · rw [if_pos hz] at h; exact CreateOutcome.noConfusion h
    · rw [if_neg hz] at h
      cases hb : buildRecord sd dto (some d) (totalSleep dto) with
      | none => rw [hb] at h; exact CreateOutcome.noConfusion h
      | some r0 =>
        rw [hb] at h
        cases h
        exact (buildRecord_fields _ _ _ _ _ hb).1

/-- Claim C1: the at-most-one-record-per-date invariant and idempotence of
the check-then-create sequence: one run preserves "at most one row per
date"; running the sequence a second time on the resulting table changes
nothing; and when a run does create a row for date `d` it does so exactly
when no row for `d` existed, leaving exactly one. -/
theorem one_record_per_date :
    ∀ (db : List SleepRecord) (data : Option SleepData) (d : String),
      (countDate db d ≤ 1 → countDate (mainStep db data).1 d ≤ 1)
      ∧ (mainStep (mainStep db data).1 data).1 = (mainStep db data).1
      ∧ (∀ r, (mainStep db data).2 = .invoked (.created r) → r.longDate = some d →
          countDate db d = 0 ∧ countDate (mainStep db data).1 d = 1) := by
  intro db data d
  cases data with
  | none => exact ⟨fun h => h, rfl, fun r h => absurd h (by simp [mainStep])⟩
  | some sd =>
    cases ht : truthyCalendarDate sd with
    | none =>
      refine ⟨fun h => ?_, ?_, fun r h hr => ?_⟩
      · simpa [mainStep, ht] using h
      · simp [mainStep, ht]
      · simp [mainStep, ht] at h
    | some d0 =>
      cases hex : sleepDataExists db d0 with
      | some r0 =>
        refine ⟨fun h => ?_, ?_, fun r h hr => ?_⟩
        · simpa [mainStep, ht, hex] using h
        · simp [mainStep, ht, hex]
        · simp [mainStep, ht, hex] at h
      | none =>
        have hc0 : countDate db d0 = 0 := (sleepDataExists_none_iff db d0).mp hex
        obtain ⟨dto0, hdto0, hcd0, -⟩ := (truthyCalendarDate_some_iff sd d0).mp ht
        have hstep1 : (mainStep db (some sd)).1 = applyCreate db (createSleepData sd true) := by
          simp [mainStep, ht, hex]
        have hstep2 : (mainStep db (some sd)).2 = .invoked (createSleepData sd true) := by
          simp [mainStep, ht, hex]
        cases hco : createSleepData sd true with
        | skippedEmpty =>
          have hdb1 : (mainStep db (some sd)).1 = db := by rw [hstep1, hco]; rfl
          refine ⟨fun h => by rwa [hdb1], by rw [hdb1]; exact hdb1, fun r h hr => ?_⟩
          rw [hstep2, hco] at h
          simp at h
        | skippedZero msg =>
          have hdb1 : (mainStep db (some sd)).1 = db := by rw [hstep1, hco]; rfl
          refine ⟨fun h => by rwa [hdb1], by rw [hdb1]; exact hdb1, fun r h hr => ?_⟩
          rw [hstep2, hco] at h
          simp at h
        | crashed =>
          have hdb1 : (mainStep db (some sd)).1 = db := by rw [hstep1, hco]; rfl
          refine ⟨fun h => by rwa [hdb1], by rw [hdb1]; exact hdb1, fun r h hr => ?_⟩
          rw [hstep2, hco] at h
          simp at h
        | created r1 =>
          have hl1 : r1.longDate = some d0 :=
            createSleepData_created_longDate sd dto0 d0 true r1 hdto0 hcd0 hco
          have hdb1 : (mainStep db (some sd)).1 = db ++ [r1] := by rw [hstep1, hco]; rfl
          have hcnt0 : countDate (db ++ [r1]) d0 = 1 := by
            rw [countDate_append, if_pos hl1, hc0]
          obtain ⟨r2, hex2⟩ : ∃ r2, sleepDataExists (db ++ [r1]) d0 = some r2 := by
            cases ho : sleepDataExists (db ++ [r1]) d0 with
            | none =>
              have h0 := (sleepDataExists_none_iff _ _).mp ho
              exact absurd (h0.symm.trans hcnt0) (by decide)
            | some r2 => exact ⟨r2, rfl⟩
          refine ⟨fun h => ?_, ?_, fun r h hr => ?_⟩
          · rw [hdb1, countDate_append]
            by_cases hde : d0 = d
            · subst hde
              rw [if_pos hl1]
              omega
            · rw [hl1, if_neg (fun hh => hde (Option.some_inj.mp hh))]
              omega
          · rw [hdb1]
            simp [mainStep, ht, hex2]
          · rw [hstep2, hco] at h
            cases h
            rw [hl1] at hr
            cases hr
            exact ⟨hc0, by rw [hdb1]; exact hcnt0⟩

/-- Witness for C1: starting from an empty table, one run on `sampleData`
creates the single row for 2024-01-15 and a second run changes nothing. -/
theorem one_record_per_date_witness :
    countDate (mainStep [] (some sampleData)).1 "2024-01-15" ≤ 1
      ∧ (mainStep (mainStep [] (some sampleData)).1 (some sampleData)).1
          = (mainStep [] (some sampleData)).1
      ∧ (countDate ([] : List SleepRecord) "2024-01-15" = 0
          ∧ countDate (mainStep [] (some sampleData)).1 "2024-01-15" = 1) :=
  ⟨(one_record_per_date [] (some sampleData) "2024-01-15").1 (by decide),
    (one_record_per_date [] (some sampleData) "2024-01-15").2.1,
    (one_record_per_date [] (some sampleData) "2024-01-15").2.2 sampleRec
      (by decide) (by decide)⟩

end GarminSync

